import Mathlib

/-!
Verification development for `rust_jit.py`, a content-addressed native-code
compilation cache.  The Python source is embedded shallowly:

* `_hash_src`, `_platform_libname`, the crate-name default, the Cargo manifest
  text and the error messages are translated directly from the source;
* the filesystem is an association list from paths (lists of segments rooted at
  the temp directory) to file contents;
* the external `cargo` toolchain is an opaque function from the filesystem,
  the working directory and the command line to a build outcome (exit status,
  captured stdout/stderr, files produced);
* `decoratorRun` is the body of `rust_jit.decorator` up to and including
  artifact resolution (the ctypes load is outside the cache pipeline);
  `rustJitFactory`/`rustJitRun` are `rust_jit` itself.
-/

/-! ## SHA-256 (`hashlib.sha256`), as used by `_hash_src` -/

def M32 : Nat := 4294967296

def rotr32 (k n : Nat) : Nat := ((n >>> k) ||| (n <<< (32 - k))) % M32

def not32 (n : Nat) : Nat := n ^^^ 4294967295

def shaCh (x y z : Nat) : Nat := (x &&& y) ^^^ (not32 x &&& z)

def shaMaj (x y z : Nat) : Nat := (x &&& y) ^^^ (x &&& z) ^^^ (y &&& z)

def bigSigma0 (x : Nat) : Nat := rotr32 2 x ^^^ rotr32 13 x ^^^ rotr32 22 x

def bigSigma1 (x : Nat) : Nat := rotr32 6 x ^^^ rotr32 11 x ^^^ rotr32 25 x

def smallSigma0 (x : Nat) : Nat := rotr32 7 x ^^^ rotr32 18 x ^^^ (x >>> 3)

def smallSigma1 (x : Nat) : Nat := rotr32 17 x ^^^ rotr32 19 x ^^^ (x >>> 10)

def sha256K : List Nat :=
  [ 1116352408, 1899447441, 3049323471, 3921009573, 961987163, 1508970993,
    2453635748, 2870763221, 3624381080, 310598401, 607225278, 1426881987,
    1925078388, 2162078206, 2614888103, 3248222580, 3835390401, 4022224774,
    264347078, 604807628, 770255983, 1249150122, 1555081692, 1996064986,
    2554220882, 2821834349, 2952996808, 3210313671, 3336571891, 3584528711,
    113926993, 338241895, 666307205, 773529912, 1294757372, 1396182291,
    1695183700, 1986661051, 2177026350, 2456956037, 2730485921, 2820302411,
    3259730800, 3345764771, 3516065817, 3600352804, 4094571909, 275423344,
    430227734, 506948616, 659060556, 883997877, 958139571, 1322822218,
    1537002063, 1747873779, 1955562222, 2024104815, 2227730452, 2361852424,
    2428436474, 2756734187, 3204031479, 3329325298]

/-- State of the eight 32-bit working registers / hash words. -/
structure H8 where
  a : Nat
  b : Nat
  c : Nat
  d : Nat
  e : Nat
  f : Nat
  g : Nat
  h : Nat
deriving DecidableEq, Repr

def sha256Init : H8 :=
  ⟨1779033703, 3144134277, 1013904242, 2773480762,
   1359893119, 2600822924, 528734635, 1541459225⟩

def bytesToWords : List Nat → List Nat
  | a :: b :: c :: d :: rest =>
      (a * 16777216 + b * 65536 + c * 256 + d) :: bytesToWords rest
  | _ => []

def scheduleStep (w : List Nat) : List Nat :=
  let n := w.length
  let g := fun i => w.getD i 0
  w ++ [(g (n - 16) + smallSigma0 (g (n - 15)) + g (n - 7)
          + smallSigma1 (g (n - 2))) % M32]

def schedule (w16 : List Nat) : List Nat :=
  (List.range 48).foldl (fun acc _ => scheduleStep acc) w16

def sha256Round (s : H8) (kw : Nat × Nat) : H8 :=
  let t1 := (s.h + bigSigma1 s.e + shaCh s.e s.f s.g + kw.1 + kw.2) % M32
  let t2 := (bigSigma0 s.a + shaMaj s.a s.b s.c) % M32
  ⟨(t1 + t2) % M32, s.a, s.b, s.c, (s.d + t1) % M32, s.e, s.f, s.g⟩

def compressChunk (s : H8) (chunk : List Nat) : H8 :=
  let w := schedule (bytesToWords chunk)
  let t := (sha256K.zip w).foldl sha256Round s
  ⟨(s.a + t.a) % M32, (s.b + t.b) % M32, (s.c + t.c) % M32, (s.d + t.d) % M32,
   (s.e + t.e) % M32, (s.f + t.f) % M32, (s.g + t.g) % M32, (s.h + t.h) % M32⟩

def shaPad (msg : List Nat) : List Nat :=
  let len := msg.length
  let bitLen := len * 8
  let zeros := (119 - len % 64) % 64
  msg ++ [128] ++ List.replicate zeros 0 ++
    [(bitLen >>> 56) % 256, (bitLen >>> 48) % 256, (bitLen >>> 40) % 256,
     (bitLen >>> 32) % 256, (bitLen >>> 24) % 256, (bitLen >>> 16) % 256,
     (bitLen >>> 8) % 256, bitLen % 256]

def sha256 (msg : List Nat) : H8 :=
  let padded := shaPad msg
  (List.range (padded.length / 64)).foldl
    (fun st i => compressChunk st ((padded.drop (64 * i)).take 64)) sha256Init

/-! ## Hexadecimal rendering (`hexdigest`) -/

def hexChars : List Char := "0123456789abcdef".data

def hexDigit (n : Nat) : Char := hexChars.getD (n % 16) '0'

def wordHexChars (w : Nat) : List Char :=
  [hexDigit (w >>> 28), hexDigit (w >>> 24), hexDigit (w >>> 20),
   hexDigit (w >>> 16), hexDigit (w >>> 12), hexDigit (w >>> 8),
   hexDigit (w >>> 4), hexDigit w]

def hexdigestChars (s : H8) : List Char :=
  wordHexChars s.a ++ wordHexChars s.b ++ wordHexChars s.c ++ wordHexChars s.d ++
  wordHexChars s.e ++ wordHexChars s.f ++ wordHexChars s.g ++ wordHexChars s.h

def strBytes (s : String) : List Nat := s.toUTF8.data.toList.map (fun b => b.toNat)

/-- `_hash_src`: `hashlib.sha256(src.encode("utf-8")).hexdigest()[:12]`. -/
def _hash_src (src : String) : String :=
  String.mk ((hexdigestChars (sha256 (strBytes src))).take 12)

/-! ## Platform library naming (`_platform_libname`) -/

/-- `str.startswith`: the characters of `pre` are a prefix of those of `s`. -/
def pyStartsWith (s pre : String) : Bool :=
  pre.data.isPrefixOf s.data

/-- `_platform_libname`, with `sys.platform` passed explicitly. -/
def _platform_libname (platform : String) (basename : String) : String :=
  if pyStartsWith platform "linux" then "lib" ++ basename ++ ".so"
  else if platform = "darwin" then "lib" ++ basename ++ ".dylib"
  else if platform = "win32" then basename ++ ".dll"
  else "lib" ++ basename ++ ".so"

/-! ## Basic facts about the fingerprint -/

theorem hexdigestChars_length (s : H8) : (hexdigestChars s).length = 64 := by
  simp [hexdigestChars, wordHexChars]

theorem hash_src_length (s : String) : (_hash_src s).length = 12 := by
  simp [_hash_src, String.length, List.length_take, hexdigestChars_length]

theorem hexDigit_mem_hexChars (n : Nat) : hexDigit n ∈ hexChars := by
  have hb : ∀ m, m < 16 → hexChars.getD m '0' ∈ hexChars := by decide
  exact hb (n % 16) (Nat.mod_lt _ (by norm_num))

theorem wordHexChars_mem (w : Nat) : ∀ c ∈ wordHexChars w, c ∈ hexChars := by
  intro c hc
  simp only [wordHexChars, List.mem_cons, List.not_mem_nil, or_false] at hc
  rcases hc with rfl | rfl | rfl | rfl | rfl | rfl | rfl | rfl <;>
    exact hexDigit_mem_hexChars _

theorem hash_src_chars_hex (s : String) :
    ∀ c ∈ (_hash_src s).data, c ∈ hexChars := by
  intro c hc
  simp only [_hash_src] at hc
  have hc' : c ∈ hexdigestChars (sha256 (strBytes s)) := List.take_subset _ _ hc
  simp only [hexdigestChars, List.mem_append] at hc'
  rcases hc' with ((((((h | h) | h) | h) | h) | h) | h) | h <;>
    exact wordHexChars_mem _ c h

/-! ## Filesystem model

Files are an association list mapping a path (list of segments, rooted at the
temp directory's parent) to its textual content; a write prepends, a read takes
the first hit, so a later write of the same path shadows the earlier one. -/

abbrev FPath := List String

structure FS where
  files : List (FPath × String)
deriving DecidableEq, Repr

def FS.read (fs : FS) (p : FPath) : Option String :=
  (fs.files.find? (fun e => e.1 == p)).map (fun e => e.2)

def FS.write (fs : FS) (p : FPath) (v : String) : FS :=
  ⟨(p, v) :: fs.files⟩

def FS.existsFile (fs : FS) (p : FPath) : Bool :=
  (fs.read p).isSome

def applyProduced (fs : FS) (l : List (FPath × String)) : FS :=
  l.foldl (fun acc e => acc.write e.1 e.2) fs

/-! ## External toolchain model

`subprocess.run(build_cmd, cwd=tempdir, ...)` is an opaque external process:
a function of the filesystem it sees, its working directory and its command
line, yielding an exit status, captured stdout/stderr and the files it wrote. -/

structure BuildOutcome where
  exitZero : Bool
  stdout : String
  stderr : String
  produced : List (FPath × String)

abbrev Compiler := FS → FPath → List String → BuildOutcome

/-! ## The pipeline (`rust_jit` and its `decorator`) -/

structure SysEnv where
  platform : String
  tmpRoot : FPath

inductive JitError where
  | toolchainMissing (msg : String)
  | compilationFailed (msg : String)
  | artifactNotFound (msg : String)
deriving DecidableEq, Repr

/-- Result of one `decorator` application: the filesystem afterwards, how many
times the external compiler ran (0 or 1), and the resolved library path or
the error raised. -/
structure StepOut where
  fs : FS
  invocations : Nat
  result : Except JitError FPath

def buildCmd : List String := ["cargo", "build", "--release"]

def tempdirOf (env : SysEnv) (crate : String) : FPath :=
  env.tmpRoot ++ ["rustjit_" ++ crate]

def srcFileOf (env : SysEnv) (crate : String) : FPath :=
  tempdirOf env crate ++ ["src", "lib.rs"]

def cargoTomlOf (env : SysEnv) (crate : String) : FPath :=
  tempdirOf env crate ++ ["Cargo.toml"]

def targetDirOf (env : SysEnv) (crate : String) : FPath :=
  tempdirOf env crate ++ ["target", "release"]

def libnameOf (env : SysEnv) (crate : String) : String :=
  _platform_libname env.platform crate

def candidateOf (env : SysEnv) (crate : String) : FPath :=
  targetDirOf env crate ++ [libnameOf env crate]

/-- The `Cargo.toml` text written on every rebuild (the f-string at lines
67-75 of `rust_jit.py`, with `crate_name` interpolated). -/
def cargoManifest (crate : String) : String :=
  "[package]\nname = \"" ++ crate ++ "\"\nversion = \"0.1.0\"\nedition = \"2021\"\n\n[lib]\nname = \"" ++ crate ++ "\"\ncrate-type = [\"cdylib\"]\n"

def failMsg (out err : String) : String :=
  "Rust compilation failed.\nSTDOUT:\n" ++ out ++ "\nSTDERR:\n" ++ err

def pathStr (p : FPath) : String := String.intercalate "/" p

def artifactMsg (env : SysEnv) (crate : String) : String :=
  "Cannot find the library: " ++ libnameOf env crate ++ " (searched under " ++
    pathStr (targetDirOf env crate) ++ ")"

/-- The cache check of lines 53-62: the cached source file exists, its content
equals the requested source, and the library is at the fixed release path. -/
def cacheFresh (env : SysEnv) (crate src : String) (fs : FS) : Bool :=
  match fs.read (srcFileOf env crate) with
  | some existing => existing == src && fs.existsFile (candidateOf env crate)
  | none => false

/-- Lines 64-77: write `Cargo.toml`, then write the source to `src/lib.rs`. -/
def materialize (env : SysEnv) (crate src : String) (fs : FS) : FS :=
  (fs.write (cargoTomlOf env crate) (cargoManifest crate)).write
    (srcFileOf env crate) src

/-- `target_dir.rglob(libname)`: first file strictly below the release
directory whose final segment is the platform library name. -/
def rglobFirst (fs : FS) (dir : FPath) (name : String) : Option FPath :=
  (fs.files.find? (fun e =>
      dir.isPrefixOf e.1 && decide (dir.length < e.1.length) &&
        e.1.getLast? == some name)).map (fun e => e.1)

/-- Lines 87-96: fixed release path first, then the recursive `rglob`
fallback, then the artifact-not-found error. -/
def resolveAfterBuild (env : SysEnv) (crate : String) (fs : FS) :
    Except JitError FPath :=
  if fs.existsFile (candidateOf env crate) then .ok (candidateOf env crate)
  else
    match rglobFirst fs (targetDirOf env crate) (libnameOf env crate) with
    | some p => .ok p
    | none => .error (.artifactNotFound (artifactMsg env crate))

/-- The rebuild branch (lines 64-96): materialize the workspace, run the
compiler, and either resolve the artifact or surface the failure. -/
def buildAndResolve (compiler : Compiler) (env : SysEnv) (crate src : String)
    (fs : FS) : StepOut :=
  let fs1 := materialize env crate src fs
  let o := compiler fs1 (tempdirOf env crate) buildCmd
  let fs2 := applyProduced fs1 o.produced
  if o.exitZero then ⟨fs2, 1, resolveAfterBuild env crate fs2⟩
  else ⟨fs2, 1, .error (.compilationFailed (failMsg o.stdout o.stderr))⟩

/-- The body of `decorator` up to the resolved `lib_path` (lines 42-96). -/
def decoratorRun (compiler : Compiler) (env : SysEnv) (crate src : String)
    (fs : FS) : StepOut :=
  if cacheFresh env crate src fs then ⟨fs, 0, .ok (candidateOf env crate)⟩
  else buildAndResolve compiler env crate src fs

/-- `crate_name or f"rustjit_{src_hash}"` (line 40): the default is taken when
the caller passes `None` or a falsy (empty) string. -/
def crateNameFor (rust_src : String) (crate_name : Option String) : String :=
  match crate_name with
  | some c => if c = "" then "rustjit_" ++ _hash_src rust_src else c
  | none => "rustjit_" ++ _hash_src rust_src

structure Factory where
  crate_name : String
  rust_src : String
  fn_name : String
  cargo_extra_args : List String
deriving DecidableEq, Repr

/-- `rust_jit` itself (lines 28-40): normalize the extra args, eagerly check
for `cargo`, then fix the crate name.  No filesystem access happens here. -/
def rustJitFactory (cargoOnPath : Bool) (rust_src fn_name : String)
    (crate_name : Option String) (cargo_extra_args : Option (List String)) :
    Except JitError Factory :=
  if cargoOnPath then
    .ok ⟨crateNameFor rust_src crate_name, rust_src, fn_name,
         cargo_extra_args.getD []⟩
  else
    .error (.toolchainMissing
      "cargo (Rust toolchain) not found in PATH. Please install Rust and cargo.")

/-- One whole bind request: the factory, then the decorator body.  A factory
error propagates with the filesystem untouched. -/
def rustJitRun (compiler : Compiler) (env : SysEnv) (cargoOnPath : Bool)
    (rust_src fn_name : String) (crate_name : Option String)
    (cargo_extra_args : Option (List String)) (fs : FS) : StepOut :=
  match rustJitFactory cargoOnPath rust_src fn_name crate_name cargo_extra_args with
  | .error e => ⟨fs, 0, .error e⟩
  | .ok fac => decoratorRun compiler env fac.crate_name fac.rust_src fs

/-- Lines 109-112: the bound callable rejects any keyword argument before
touching the native function; positional calls go straight through. -/
def wrapper (cfn : List Int → Int) (args : List Int)
    (kwargs : List (String × Int)) : Except String Int :=
  if kwargs.isEmpty then .ok (cfn args) else .error "Unsupported"

/-! ## Filesystem lemmas -/

theorem FS.read_write_self (fs : FS) (p : FPath) (v : String) :
    (fs.write p v).read p = some v := by
  simp [FS.read, FS.write, List.find?_cons]

theorem FS.read_write_ne (fs : FS) (p q : FPath) (v : String) (h : q ≠ p) :
    (fs.write p v).read q = fs.read q := by
  simp only [FS.read, FS.write]
  rw [List.find?_cons_of_neg]
  simp only [beq_iff_eq]
  exact fun hpq => h hpq.symm

theorem applyProduced_read_notMem (l : List (FPath × String)) (fs : FS)
    (q : FPath) (h : ∀ e ∈ l, e.1 ≠ q) :
    (applyProduced fs l).read q = fs.read q := by
  induction l generalizing fs with
  | nil => rfl
  | cons e t ih =>
      have ht : ∀ e' ∈ t, e'.1 ≠ q := fun e' he' => h e' (List.mem_cons_of_mem _ he')
      calc (applyProduced (fs.write e.1 e.2) t).read q
          = (fs.write e.1 e.2).read q := ih _ ht
        _ = fs.read q := FS.read_write_ne _ _ _ _
            (fun hq => h e (List.mem_cons_self _ _) hq.symm)

theorem applyProduced_single (fs : FS) (p : FPath) (v : String) :
    applyProduced fs [(p, v)] = fs.write p v := rfl

theorem ne_of_length_ne {α : Type} {p q : List α} (h : p.length ≠ q.length) :
    p ≠ q := fun hc => h (by rw [hc])

theorem tempdirOf_length (env : SysEnv) (crate : String) :
    (tempdirOf env crate).length = env.tmpRoot.length + 1 := by
  simp [tempdirOf]

theorem srcFile_ne_cargoToml (env : SysEnv) (crate : String) :
    srcFileOf env crate ≠ cargoTomlOf env crate := by
  apply ne_of_length_ne
  simp [srcFileOf, cargoTomlOf]

theorem candidate_ne_srcFile (env : SysEnv) (crate : String) :
    candidateOf env crate ≠ srcFileOf env crate := by
  apply ne_of_length_ne
  simp [candidateOf, targetDirOf, srcFileOf]

theorem candidate_ne_cargoToml (env : SysEnv) (crate : String) :
    candidateOf env crate ≠ cargoTomlOf env crate := by
  apply ne_of_length_ne
  simp [candidateOf, targetDirOf, cargoTomlOf]

theorem materialize_read_src (env : SysEnv) (crate src : String) (fs : FS) :
    (materialize env crate src fs).read (srcFileOf env crate) = some src :=
  FS.read_write_self _ _ _

theorem materialize_read_toml (env : SysEnv) (crate src : String) (fs : FS) :
    (materialize env crate src fs).read (cargoTomlOf env crate) =
      some (cargoManifest crate) := by
  unfold materialize
  rw [FS.read_write_ne _ _ _ _ (Ne.symm (srcFile_ne_cargoToml env crate))]
  exact FS.read_write_self _ _ _

theorem cacheFresh_iff (env : SysEnv) (crate src : String) (fs : FS) :
    cacheFresh env crate src fs = true ↔
      (fs.read (srcFileOf env crate) = some src ∧
        fs.existsFile (candidateOf env crate) = true) := by
  rcases hr : fs.read (srcFileOf env crate) with _ | e
  · simp [cacheFresh, hr]
  · simp only [cacheFresh, hr, Bool.and_eq_true, beq_iff_eq]
    constructor
    · rintro ⟨rfl, hx⟩; exact ⟨rfl, hx⟩
    · rintro ⟨he, hx⟩; exact ⟨(Option.some.injEq _ _ ▸ he : e = src), hx⟩

theorem cacheFresh_false_of_read_ne (env : SysEnv) (crate src : String)
    (fs : FS) (h : fs.read (srcFileOf env crate) ≠ some src) :
    cacheFresh env crate src fs = false := by
  rcases hf : cacheFresh env crate src fs with _ | _
  · rfl
  · exact absurd ((cacheFresh_iff env crate src fs).mp hf).1 h

theorem decoratorRun_invocations (compiler : Compiler) (env : SysEnv)
    (crate src : String) (fs : FS) :
    (decoratorRun compiler env crate src fs).invocations =
      if cacheFresh env crate src fs then 0 else 1 := by
  by_cases h : cacheFresh env crate src fs = true
  · simp [decoratorRun, h]
  · simp only [Bool.not_eq_true] at h
    simp only [decoratorRun, h, Bool.false_eq_true, if_false, buildAndResolve]
    split <;> rfl

/-! ## Claim theorems: factory-level and pure-function claims -/

/-- C5: if the external toolchain binary (cargo) is absent from the search
path, every request fails with the distinct toolchain-not-found error; the
check happens eagerly in `rust_jit` itself (request construction), before the
decorator performs any filesystem work, so the filesystem is returned
untouched and the compiler is never invoked. -/
theorem C5_toolchain_missing_eager (compiler : Compiler) (env : SysEnv)
    (rust_src fn_name : String) (crate_name : Option String)
    (cargo_extra_args : Option (List String)) (fs : FS) :
    rustJitFactory false rust_src fn_name crate_name cargo_extra_args =
      .error (.toolchainMissing
        "cargo (Rust toolchain) not found in PATH. Please install Rust and cargo.") ∧
    rustJitRun compiler env false rust_src fn_name crate_name cargo_extra_args fs =
      ⟨fs, 0, .error (.toolchainMissing
        "cargo (Rust toolchain) not found in PATH. Please install Rust and cargo.")⟩ :=
  ⟨rfl, rfl⟩

/-- C8: the platform library name is `lib<n>.so` when the platform starts with
"linux", `lib<n>.dylib` on "darwin", `<n>.dll` on "win32", and falls back to
the Unix-like `lib<n>.so` on every other platform instead of failing. -/
theorem C8_platform_library_name (n : String) :
    _platform_libname "linux" n = "lib" ++ n ++ ".so" ∧
    _platform_libname "darwin" n = "lib" ++ n ++ ".dylib" ∧
    _platform_libname "win32" n = n ++ ".dll" ∧
    ∀ p : String, pyStartsWith p "linux" = false → p ≠ "darwin" → p ≠ "win32" →
      _platform_libname p n = "lib" ++ n ++ ".so" := by
  refine ⟨rfl, rfl, rfl, ?_⟩
  intro p h1 h2 h3
  simp [_platform_libname, h1, h2, h3]

/-- Witness for C8: concrete platforms, including an unknown one. -/
theorem C8_platform_library_name_witness :
    _platform_libname "freebsd" "foo" = "libfoo.so" ∧
    _platform_libname "win32" "foo" = "foo.dll" := by
  have h := C8_platform_library_name "foo"
  exact ⟨(h.2.2.2 "freebsd" (by decide) (by decide) (by decide)).trans (by decide),
         h.2.2.1.trans (by decide)⟩

/-- C9: a call that passes any keyword argument fails with the unsupported
error, and the result is then independent of the underlying native function
(it is not called); a purely positional call invokes the native function. -/
theorem C9_keyword_call_rejected (cfn cfn' : List Int → Int) (args : List Int)
    (kwargs : List (String × Int)) (h : kwargs ≠ []) :
    wrapper cfn args kwargs = .error "Unsupported" ∧
    wrapper cfn args kwargs = wrapper cfn' args kwargs ∧
    wrapper cfn args [] = .ok (cfn args) := by
  obtain ⟨e, t, rfl⟩ := List.exists_cons_of_ne_nil h
  exact ⟨rfl, rfl, rfl⟩

/-- Witness for C9: one keyword argument is rejected identically for two
different native functions; the positional call goes through. -/
theorem C9_keyword_call_rejected_witness :
    ([(("x" : String), (3 : Int))] ≠ ([] : List (String × Int))) ∧
    (wrapper (fun _ => (7 : Int)) [1, 2] [("x", 3)] = .error "Unsupported" ∧
     wrapper (fun _ => (7 : Int)) [1, 2] [("x", 3)] =
       wrapper (fun _ => (8 : Int)) [1, 2] [("x", 3)] ∧
     wrapper (fun _ => (7 : Int)) [1, 2] [] =
       .ok ((fun _ => (7 : Int)) [1, 2])) :=
  ⟨by decide,
   C9_keyword_call_rejected (fun _ => 7) (fun _ => 8) [1, 2] [("x", 3)] (by decide)⟩

/-- C10: the build command is the fixed `cargo build --release`, and two runs
that differ only in `cargo_extra_args` (and in compilers that agree on that
fixed command) are observationally equivalent. -/
theorem C10_extra_args_no_effect (env : SysEnv) (cargoOnPath : Bool)
    (rust_src fn_name : String) (crate_name : Option String) (fs : FS)
    (e1 e2 : Option (List String)) (comp1 comp2 : Compiler)
    (hagree : ∀ fs' p, comp1 fs' p buildCmd = comp2 fs' p buildCmd) :
    buildCmd = ["cargo", "build", "--release"] ∧
    rustJitRun comp1 env cargoOnPath rust_src fn_name crate_name e1 fs =
      rustJitRun comp2 env cargoOnPath rust_src fn_name crate_name e2 fs := by
  refine ⟨rfl, ?_⟩
  cases cargoOnPath with
  | false => rfl
  | true =>
      show decoratorRun comp1 env (crateNameFor rust_src crate_name) rust_src fs =
        decoratorRun comp2 env (crateNameFor rust_src crate_name) rust_src fs
      simp only [decoratorRun, buildAndResolve,
        hagree (materialize env (crateNameFor rust_src crate_name) rust_src fs)
          (tempdirOf env (crateNameFor rust_src crate_name))]

def compNull : Compiler := fun _ _ _ => ⟨true, "", "", []⟩

/-- Witness for C10: same compiler, different extra args, identical outcome. -/
theorem C10_extra_args_no_effect_witness :
    (∀ fs' p, compNull fs' p buildCmd = compNull fs' p buildCmd) ∧
    (buildCmd = ["cargo", "build", "--release"] ∧
     rustJitRun compNull ⟨"linux", ["tmp"]⟩ true "SRC" "f" (some "m") none ⟨[]⟩ =
       rustJitRun compNull ⟨"linux", ["tmp"]⟩ true "SRC" "f" (some "m")
         (some ["--verbose"]) ⟨[]⟩) :=
  ⟨fun _ _ => rfl,
   C10_extra_args_no_effect ⟨"linux", ["tmp"]⟩ true "SRC" "f" (some "m") ⟨[]⟩
     none (some ["--verbose"]) compNull compNull (fun _ _ => rfl)⟩

/-- C7 counterexample: the digest is not itself the default logical name (the
code prepends "rustjit_"), and an explicit but empty crate name still falls
back to the digest-derived default. -/
theorem C7_counterexample :
    crateNameFor "x" none ≠ _hash_src "x" ∧
    crateNameFor "x" (some "") = "rustjit_" ++ _hash_src "x" := by
  constructor
  · intro h
    have hlen := congrArg String.length h
    rw [hash_src_length] at hlen
    have he : crateNameFor "x" none = "rustjit_" ++ _hash_src "x" := rfl
    rw [he, String.length_append, hash_src_length] at hlen
    have h8 : ("rustjit_" : String).length = 8 := rfl
    rw [h8] at hlen
    omega
  · rfl

/-- C7 (amended): the fingerprint is deterministic and is a 12-character
hexadecimal string; it is used as the suffix of the default logical name
`rustjit_<digest>` exactly when the caller supplies no crate name or a falsy
(empty) one, and a non-empty explicit crate name is used unchanged. -/
theorem C7_amended_fingerprint (s : String) :
    _hash_src s = _hash_src s ∧
    (_hash_src s).length = 12 ∧
    (∀ c ∈ (_hash_src s).data, c ∈ hexChars) ∧
    crateNameFor s none = "rustjit_" ++ _hash_src s ∧
    crateNameFor s (some "") = "rustjit_" ++ _hash_src s ∧
    ∀ c : String, c ≠ "" → crateNameFor s (some c) = c := by
  refine ⟨rfl, hash_src_length s, hash_src_chars_hex s, rfl, rfl, ?_⟩
  intro c hc
  simp [crateNameFor, hc]

/-- Witness for C7 (amended): an explicit non-empty crate name is kept. -/
theorem C7_amended_fingerprint_witness :
    (("mylib" : String) ≠ "") ∧ crateNameFor "abc" (some "mylib") = "mylib" :=
  ⟨by decide, (C7_amended_fingerprint "abc").2.2.2.2.2 "mylib" (by decide)⟩

/-! ## Resolver lemmas and concrete fixtures -/

theorem existsFile_write_self (fs : FS) (p : FPath) (v : String) :
    (fs.write p v).existsFile p = true := by
  simp [FS.existsFile, FS.read_write_self]

theorem resolveAfterBuild_candidate (env : SysEnv) (crate : String) (fs : FS)
    (h : fs.existsFile (candidateOf env crate) = true) :
    resolveAfterBuild env crate fs = .ok (candidateOf env crate) := by
  simp [resolveAfterBuild, h]

def envL : SysEnv := ⟨"linux", ["tmp"]⟩

def compFail : Compiler := fun _ _ _ => ⟨false, "OUT", "ERR", []⟩

def compProd : Compiler := fun _ _ _ => ⟨true, "", "", [(candidateOf envL "m", "BIN")]⟩

/-- A workspace whose cached source matches but whose library sits only in a
nested subdirectory of the release folder, not at the fixed path. -/
def fsNested : FS :=
  ⟨[(srcFileOf envL "m", "SRC"),
    (targetDirOf envL "m" ++ ["deps", libnameOf envL "m"], "BIN")]⟩

/-! ## Claim theorems: the cache-and-build pipeline -/

/-- C1: the decorator reuses the cache (0 compiler invocations) exactly when
the cached source file holds the requested source text and the library exists
at the fixed release path; starting from a cold cache, two successive
identical requests against a compiler that succeeds and deposits the artifact
at the fixed release path perform exactly one compiler invocation, both
returning the fixed artifact path. -/
theorem C1_reuse_iff_and_idempotent (compiler : Compiler) (env : SysEnv)
    (crate src : String) (fs : FS)
    (hcold : fs.read (srcFileOf env crate) ≠ some src)
    (hzero : ∀ fs', (compiler fs' (tempdirOf env crate) buildCmd).exitZero = true)
    (hprod : ∀ fs', ∃ blob,
        (compiler fs' (tempdirOf env crate) buildCmd).produced =
          [(candidateOf env crate, blob)]) :
    (∀ fs0 : FS, (decoratorRun compiler env crate src fs0).invocations = 0 ↔
        (fs0.read (srcFileOf env crate) = some src ∧
          fs0.existsFile (candidateOf env crate) = true)) ∧
    ((decoratorRun compiler env crate src fs).invocations +
      (decoratorRun compiler env crate src
        (decoratorRun compiler env crate src fs).fs).invocations = 1) ∧
    (decoratorRun compiler env crate src fs).result = .ok (candidateOf env crate) ∧
    (decoratorRun compiler env crate src
        (decoratorRun compiler env crate src fs).fs).result =
      .ok (candidateOf env crate) := by
  have hiff : ∀ fs0 : FS, (decoratorRun compiler env crate src fs0).invocations = 0 ↔
      (fs0.read (srcFileOf env crate) = some src ∧
        fs0.existsFile (candidateOf env crate) = true) := by
    intro fs0
    rw [decoratorRun_invocations]
    by_cases h : cacheFresh env crate src fs0 = true
    · have hc := (cacheFresh_iff env crate src fs0).mp h
      simp [h, hc.1, hc.2]
    · rw [if_neg h]
      constructor
      · intro h10; exact absurd h10 one_ne_zero
      · intro hc; exact absurd ((cacheFresh_iff env crate src fs0).mpr hc) h
  have h1 : cacheFresh env crate src fs = false :=
    cacheFresh_false_of_read_ne env crate src fs hcold
  obtain ⟨blob, hblob⟩ := hprod (materialize env crate src fs)
  have hfs2 : applyProduced (materialize env crate src fs)
      (compiler (materialize env crate src fs) (tempdirOf env crate)
        buildCmd).produced =
      (materialize env crate src fs).write (candidateOf env crate) blob := by
    rw [hblob]; rfl
  have hrun1 : decoratorRun compiler env crate src fs =
      ⟨(materialize env crate src fs).write (candidateOf env crate) blob, 1,
        .ok (candidateOf env crate)⟩ := by
    simp only [decoratorRun, h1, Bool.false_eq_true, if_false, buildAndResolve,
      hzero, if_true, hfs2]
    rw [resolveAfterBuild_candidate env crate _ (existsFile_write_self _ _ _)]
  have hread2 : ((materialize env crate src fs).write (candidateOf env crate)
      blob).read (srcFileOf env crate) = some src := by
    rw [FS.read_write_ne _ _ _ _ (Ne.symm (candidate_ne_srcFile env crate))]
    exact materialize_read_src env crate src fs
  have hfresh2 : cacheFresh env crate src
      ((materialize env crate src fs).write (candidateOf env crate) blob) = true :=
    (cacheFresh_iff env crate src _).mpr ⟨hread2, existsFile_write_self _ _ _⟩
  have hrun2 : decoratorRun compiler env crate src
      ((materialize env crate src fs).write (candidateOf env crate) blob) =
      ⟨(materialize env crate src fs).write (candidateOf env crate) blob, 0,
        .ok (candidateOf env crate)⟩ := by
    simp [decoratorRun, hfresh2]
  refine ⟨hiff, ?_, ?_, ?_⟩
  · rw [hrun1]
    show 1 + (decoratorRun compiler env crate src
      ((materialize env crate src fs).write (candidateOf env crate) blob)).invocations = 1
    rw [hrun2]
    rfl
  · rw [hrun1]
  · rw [hrun1]
    show (decoratorRun compiler env crate src
      ((materialize env crate src fs).write (candidateOf env crate) blob)).result = _
    rw [hrun2]

/-- Witness for C1: cold start, compiler that writes the fixed artifact path;
two successive identical binds cost exactly one compiler invocation. -/
theorem C1_reuse_iff_and_idempotent_witness :
    ((⟨[]⟩ : FS).read (srcFileOf envL "m") ≠ some "SRC") ∧
    (∀ fs', (compProd fs' (tempdirOf envL "m") buildCmd).exitZero = true) ∧
    (∀ fs', ∃ blob, (compProd fs' (tempdirOf envL "m") buildCmd).produced =
        [(candidateOf envL "m", blob)]) ∧
    ((decoratorRun compProd envL "m" "SRC" (⟨[]⟩ : FS)).invocations +
      (decoratorRun compProd envL "m" "SRC"
        (decoratorRun compProd envL "m" "SRC" (⟨[]⟩ : FS)).fs).invocations = 1) :=
  ⟨by decide, fun _ => rfl, fun _ => ⟨"BIN", rfl⟩,
   (C1_reuse_iff_and_idempotent compProd envL "m" "SRC" ⟨[]⟩ (by decide)
      (fun _ => rfl) (fun _ => ⟨"BIN", rfl⟩)).2.1⟩

/-- C2: a request whose source text differs from the cached one triggers
exactly one rebuild, after which the cached source file holds the new source
and the manifest is freshly written, superseding the previous unit (the
association-list filesystem keeps one live entry per path, so at most one
compilation unit per logical name is visible); holds whenever the compiler
itself does not write over those two files. -/
theorem C2_changed_source_rebuilds_and_overwrites (compiler : Compiler)
    (env : SysEnv) (crate src old : String) (fs : FS)
    (hold : fs.read (srcFileOf env crate) = some old)
    (hne : old ≠ src)
    (hprod : ∀ e ∈ (compiler (materialize env crate src fs)
        (tempdirOf env crate) buildCmd).produced,
        e.1 ≠ srcFileOf env crate ∧ e.1 ≠ cargoTomlOf env crate) :
    (decoratorRun compiler env crate src fs).invocations = 1 ∧
    (decoratorRun compiler env crate src fs).fs.read (srcFileOf env crate) =
      some src ∧
    (decoratorRun compiler env crate src fs).fs.read (cargoTomlOf env crate) =
      some (cargoManifest crate) := by
  have h1 : cacheFresh env crate src fs = false := by
    apply cacheFresh_false_of_read_ne
    rw [hold]
    intro hc
    exact hne (by injection hc)
  have hfs : (decoratorRun compiler env crate src fs).fs =
      applyProduced (materialize env crate src fs)
        (compiler (materialize env crate src fs) (tempdirOf env crate)
          buildCmd).produced := by
    simp only [decoratorRun, h1, Bool.false_eq_true, if_false, buildAndResolve]
    split <;> rfl
  refine ⟨?_, ?_, ?_⟩
  · rw [decoratorRun_invocations, h1]; rfl
  · rw [hfs, applyProduced_read_notMem _ _ _ (fun e he => (hprod e he).1)]
    exact materialize_read_src env crate src fs
  · rw [hfs, applyProduced_read_notMem _ _ _ (fun e he => (hprod e he).2)]
    exact materialize_read_toml env crate src fs

/-- Witness for C2: the cached source is "OLD", the request carries "NEW";
one rebuild happens and both files are overwritten. -/
theorem C2_changed_source_rebuilds_and_overwrites_witness :
    ((⟨[(srcFileOf envL "m", "OLD")]⟩ : FS).read (srcFileOf envL "m") =
      some "OLD") ∧
    (("OLD" : String) ≠ "NEW") ∧
    ((decoratorRun compProd envL "m" "NEW"
        (⟨[(srcFileOf envL "m", "OLD")]⟩ : FS)).invocations = 1 ∧
     (decoratorRun compProd envL "m" "NEW"
        (⟨[(srcFileOf envL "m", "OLD")]⟩ : FS)).fs.read (srcFileOf envL "m") =
        some "NEW" ∧
     (decoratorRun compProd envL "m" "NEW"
        (⟨[(srcFileOf envL "m", "OLD")]⟩ : FS)).fs.read (cargoTomlOf envL "m") =
        some (cargoManifest "m")) :=
  ⟨by decide, by decide,
   C2_changed_source_rebuilds_and_overwrites compProd envL "m" "NEW" "OLD"
     ⟨[(srcFileOf envL "m", "OLD")]⟩ (by decide) (by decide) (by decide)⟩

/-- C3 counterexample: with the cached source matching the request but the
library present only nested below the release directory (so the recursive
search would find it), the code does NOT skip the build and does NOT resolve
the nested artifact: the cache check consults only the fixed release path,
and the decorator goes down the rebuild path (one compiler invocation,
surfacing the compiler's failure here), contradicting the claim that on a
source match the artifact is located by the recursive fallback before being
considered missing. -/
theorem C3_counterexample :
    fsNested.read (srcFileOf envL "m") = some "SRC" ∧
    fsNested.existsFile (candidateOf envL "m") = false ∧
    rglobFirst fsNested (targetDirOf envL "m") (libnameOf envL "m") =
      some (targetDirOf envL "m" ++ ["deps", libnameOf envL "m"]) ∧
    (decoratorRun compFail envL "m" "SRC" fsNested).invocations = 1 ∧
    (decoratorRun compFail envL "m" "SRC" fsNested).result =
      .error (.compilationFailed (failMsg "OUT" "ERR")) :=
  ⟨rfl, rfl, rfl, rfl, rfl⟩

/-- C3 (amended): when the cached source matches the request, the reuse path
consults only the fixed release path; if the library is not there, the
decorator rebuilds (exactly one compiler invocation) rather than searching
the release subtree recursively — the recursive fallback runs only after a
build. -/
theorem C3_amended_no_search_on_reuse (compiler : Compiler) (env : SysEnv)
    (crate src : String) (fs : FS)
    (hmatch : fs.read (srcFileOf env crate) = some src)
    (hmiss : fs.existsFile (candidateOf env crate) = false) :
    (decoratorRun compiler env crate src fs).invocations = 1 := by
  have hcf : cacheFresh env crate src fs = false := by
    rcases hf : cacheFresh env crate src fs
    · rfl
    · exact absurd ((cacheFresh_iff env crate src fs).mp hf).2 (by simp [hmiss])
  rw [decoratorRun_invocations, hcf]
  rfl

/-- Witness for C3 (amended): the nested-artifact workspace rebuilds. -/
theorem C3_amended_no_search_on_reuse_witness :
    (fsNested.read (srcFileOf envL "m") = some "SRC") ∧
    (fsNested.existsFile (candidateOf envL "m") = false) ∧
    (decoratorRun compNull envL "m" "SRC" fsNested).invocations = 1 :=
  ⟨rfl, rfl, C3_amended_no_search_on_reuse compNull envL "m" "SRC" fsNested rfl rfl⟩

/-- C4: after a rebuild whose compiler run exits zero, the decorator ran the
compiler exactly once (no retry) and its result is artifact resolution on the
post-build filesystem; resolution takes the fixed release path when the file
is there, otherwise the first hit of the recursive search below the release
directory, otherwise the artifact-not-found error, whose message embeds the
searched release path. -/
theorem C4_artifact_resolution_after_build (compiler : Compiler) (env : SysEnv)
    (crate src : String) (fs : FS)
    (hstale : cacheFresh env crate src fs = false)
    (hzero : (compiler (materialize env crate src fs) (tempdirOf env crate)
        buildCmd).exitZero = true) :
    (decoratorRun compiler env crate src fs).invocations = 1 ∧
    (decoratorRun compiler env crate src fs).result =
      resolveAfterBuild env crate (applyProduced (materialize env crate src fs)
        (compiler (materialize env crate src fs) (tempdirOf env crate)
          buildCmd).produced) ∧
    (∀ fs2 : FS, fs2.existsFile (candidateOf env crate) = true →
      resolveAfterBuild env crate fs2 = .ok (candidateOf env crate)) ∧
    (∀ fs2 : FS, fs2.existsFile (candidateOf env crate) = false →
      (∀ p, rglobFirst fs2 (targetDirOf env crate) (libnameOf env crate) =
          some p → resolveAfterBuild env crate fs2 = .ok p) ∧
      (rglobFirst fs2 (targetDirOf env crate) (libnameOf env crate) = none →
        resolveAfterBuild env crate fs2 =
          .error (.artifactNotFound (artifactMsg env crate)))) ∧
    (∃ a b, artifactMsg env crate = a ++ pathStr (targetDirOf env crate) ++ b) := by
  refine ⟨?_, ?_, ?_, ?_, ?_⟩
  · rw [decoratorRun_invocations, hstale]; rfl
  · simp [decoratorRun, hstale, buildAndResolve, hzero]
  · intro fs2 h; simp [resolveAfterBuild, h]
  · intro fs2 h
    constructor
    · intro p hp; simp [resolveAfterBuild, h, hp]
    · intro hp; simp [resolveAfterBuild, h, hp]
  · exact ⟨"Cannot find the library: " ++ libnameOf env crate ++
      " (searched under ", ")", by simp [artifactMsg, String.append_assoc]⟩

/-- Witness for C4: a cold cache and a succeeding compiler run once. -/
theorem C4_artifact_resolution_after_build_witness :
    (cacheFresh envL "m" "SRC" (⟨[]⟩ : FS) = false) ∧
    ((compNull (materialize envL "m" "SRC" (⟨[]⟩ : FS)) (tempdirOf envL "m")
        buildCmd).exitZero = true) ∧
    (decoratorRun compNull envL "m" "SRC" (⟨[]⟩ : FS)).invocations = 1 :=
  ⟨rfl, rfl,
   (C4_artifact_resolution_after_build compNull envL "m" "SRC" ⟨[]⟩ rfl rfl).1⟩

/-- C6: when the cache is stale and the toolchain exits non-zero, the request
fails with the compilation-failed error whose message is the fixed template
embedding the full captured stdout and stderr, hence contains both verbatim
as substrings. -/
theorem C6_compilation_failure_surfaces_output (compiler : Compiler)
    (env : SysEnv) (crate src : String) (fs : FS)
    (hstale : cacheFresh env crate src fs = false)
    (hfail : (compiler (materialize env crate src fs) (tempdirOf env crate)
        buildCmd).exitZero = false) :
    (decoratorRun compiler env crate src fs).result =
      .error (.compilationFailed (failMsg
        (compiler (materialize env crate src fs) (tempdirOf env crate)
          buildCmd).stdout
        (compiler (materialize env crate src fs) (tempdirOf env crate)
          buildCmd).stderr)) ∧
    (∀ out err : String, ∃ a b, failMsg out err = a ++ out ++ b) ∧
    (∀ out err : String, ∃ c, failMsg out err = c ++ err) := by
  refine ⟨?_, ?_, ?_⟩
  · simp [decoratorRun, hstale, buildAndResolve, hfail]
  · intro out err
    exact ⟨"Rust compilation failed.\nSTDOUT:\n", "\nSTDERR:\n" ++ err, by
      simp [failMsg, String.append_assoc]⟩
  · intro out err
    exact ⟨"Rust compilation failed.\nSTDOUT:\n" ++ out ++ "\nSTDERR:\n", by
      simp [failMsg, String.append_assoc]⟩

/-- Witness for C6: the failing compiler's captured output lands verbatim in
the compilation-failed message. -/
theorem C6_compilation_failure_surfaces_output_witness :
    (cacheFresh envL "m" "SRC" (⟨[]⟩ : FS) = false) ∧
    ((compFail (materialize envL "m" "SRC" (⟨[]⟩ : FS)) (tempdirOf envL "m")
        buildCmd).exitZero = false) ∧
    (decoratorRun compFail envL "m" "SRC" (⟨[]⟩ : FS)).result =
      .error (.compilationFailed (failMsg "OUT" "ERR")) :=
  ⟨rfl, rfl,
   (C6_compilation_failure_surfaces_output compFail envL "m" "SRC" ⟨[]⟩
     rfl rfl).1⟩
